import Mathlib

/-!
Verification of the data-preparation and filtering pipeline of the SDG
dashboard (`app.py`): loading and merging the two CSV sources, the
country/indicator filter, numeric coercion of the year column, and the
declarative chart configuration (target-line overlay, range-selector
buttons).

The CSV level is modelled generically (`Csv`: a header plus string rows),
mirroring what `pd.read_csv` produces; the merged table consumed by the
filter and the chart builders is modelled as a list of typed rows
(`MRow`), matching the columns the code actually reads
(COUNTRY_ID, INDICATOR_ID, YEAR, VALUE, INDICATOR_LABEL_EN).
-/

/-- A raw cell of the YEAR column: pandas reads it as a number or a string,
and `pd.to_numeric(errors="coerce")` turns unparsable entries into NaN. -/
inductive Cell where
  | num (n : Int)
  | str (s : String)
  | nan
deriving DecidableEq, Repr

/-- Accumulating decimal parse over a character list; fails at the first
non-digit character. -/
def parseNatAux : List Char → Nat → Option Nat
  | [], acc => some acc
  | c :: cs, acc =>
    if c.isDigit then parseNatAux cs (acc * 10 + (c.toNat - 48)) else none

/-- Parse a string as a (possibly negative) decimal integer, `none` when the
string is not a number. -/
def parseInt? (s : String) : Option Int :=
  match s.data with
  | [] => none
  | '-' :: [] => none
  | '-' :: cs => (parseNatAux cs 0).map (fun n => -(n : Int))
  | cs => (parseNatAux cs 0).map (fun n => (n : Int))

/-- Model of `pd.to_numeric(x, errors="coerce")` on one cell: numbers pass
through, parsable strings become numbers, anything else becomes NaN. -/
def toNumericCell : Cell → Cell
  | .num n => .num n
  | .nan => .nan
  | .str s =>
    match parseInt? s with
    | some n => .num n
    | none => .nan

/-- The numeric content of a cell, `none` for NaN or an unparsed string
(pandas aggregations such as `min`/`max` skip NaN entries). -/
def cellInt? : Cell → Option Int
  | .num n => some n
  | _ => none

/-- One row of the merged table `data_merged`, with the columns the
pipeline reads after the left merge of SDG_DATA_NATIONAL with SDG_LABEL. -/
structure MRow where
  countryId : String
  indicatorId : String
  year : Cell
  value : Rat
  indicatorLabelEn : Option String
deriving DecidableEq, Repr

/-- Source line 47: the Sub-Saharan Africa country-code list. -/
def SUB_SAHARAN : List String :=
  ["ETH","NGA","KEN","TZA","GHA","UGA","ZAF","RWA","SEN","COD","CMR","MLI"]

/-- Source line 48: the South America country-code list. -/
def SOUTH_AMERICA : List String :=
  ["BRA","ARG","CHL","PER","COL","ECU","BOL","URY","PRY","VEN"]

/-- Source lines 51-56: keep the rows whose COUNTRY_ID is in `countries`
and whose INDICATOR_ID equals `indicator_code`. -/
def filter_by_countries_indicator (df : List MRow) (countries : List String)
    (indicator_code : String) : List MRow :=
  df.filter (fun r => countries.contains r.countryId && r.indicatorId == indicator_code)

/-- Source lines 142-146: the static label-to-code mapping used by the
Regional Comparison view. -/
def indicator_options : List (String × String) :=
  [("Primary Completion (CR.1)", "CR.1"),
   ("Lower Secondary Completion (CR.2)", "CR.2"),
   ("Adult Literacy Rate (LR.AG15T99)", "LR.AG15T99")]

/-- Source line 148: `indicator_options[selected_indicator_label]`, a Python
dict lookup; `none` models the KeyError raised for an absent key. -/
def indicator_code (display_label : String) : Option String :=
  (indicator_options.find? (fun p => p.1 == display_label)).map (fun p => p.2)

/-- Source lines 151-154: the region-name-to-country-set branch. Any name
other than "Sub-Saharan Africa" takes the else branch and gets the South
America list; no raise path exists. -/
def region_countries (region_choice : String) : List String :=
  if region_choice == "Sub-Saharan Africa" then SUB_SAHARAN else SOUTH_AMERICA

/-- A rangeselector button (plotly `dict(count=..,label=..,step=..,stepmode=..)`). -/
structure RangeButton where
  count : Option Nat
  label : String
  step : String
  stepmode : Option String
deriving DecidableEq, Repr

/-- A plotly shape as added by `add_shape`: line kind, x-extent (possibly
NaN, modelled as `none`), y-extent, dash style and color. -/
structure Shape where
  kind : String
  x0 : Option Int
  x1 : Option Int
  y0 : Rat
  y1 : Rat
  dash : String
  color : String
deriving DecidableEq, Repr

/-- A plotly text annotation as added on the figure: anchor point and text. -/
structure TextMark where
  x : Option Int
  y : Rat
  text : String
  showarrow : Bool
deriving DecidableEq, Repr

/-- The declarative figure produced by the chart-building code: the plotted
data plus the added shapes, text marks and x-axis range controls. -/
structure Fig where
  xField : String
  yField : String
  colorField : String
  title : String
  data : List MRow
  shapes : List Shape
  textMarks : List TextMark
  rangeButtons : List RangeButton
  rangeslider : Bool
deriving DecidableEq, Repr

/-- Source line 65 / 173: in-place `df["YEAR"] = pd.to_numeric(df["YEAR"],
errors="coerce")`, applied to one row. -/
def coerceYear (r : MRow) : MRow :=
  { r with year := toNumericCell r.year }

/-- Source lines 59-110: coerce YEAR, plot VALUE by YEAR colored by
COUNTRY_ID, add the 90% target line spanning [min_year, max_year], the
"90% target" annotation at (max_year, 90), and the range selector. The
shape and the text mark are added unconditionally; when every year fails
coercion, `min_year`/`max_year` are NaN (here `none`). -/
def plot_adult_literacy_trend (df : List MRow) : Fig :=
  let df2 := df.map coerceYear
  let years := df2.filterMap (fun r => cellInt? r.year)
  let min_year := years.min?
  let max_year := years.max?
  { xField := "YEAR", yField := "VALUE", colorField := "COUNTRY_ID",
    title := "Trend: Adult Literacy Rate (15+)",
    data := df2,
    shapes := [⟨"line", min_year, max_year, 90, 90, "dash", "red"⟩],
    textMarks := [⟨max_year, 90, "90% target", false⟩],
    rangeButtons :=
      [⟨some 5, "Last 5y", "year", some "backward"⟩,
       ⟨some 10, "Last 10y", "year", some "backward"⟩,
       ⟨none, "All", "all", none⟩],
    rangeslider := true }

/-- Source lines 173-195: the Regional Comparison chart built from the
already-filtered rows — YEAR coerced in place, line chart, and the same
range selector; no target overlay. -/
def regional_comparison_fig (df_filtered : List MRow)
    (selected_indicator_label : String) : Fig :=
  let df2 := df_filtered.map coerceYear
  { xField := "YEAR", yField := "VALUE", colorField := "COUNTRY_ID",
    title := selected_indicator_label ++ " Over Time",
    data := df2,
    shapes := [],
    textMarks := [],
    rangeButtons :=
      [⟨some 5, "Last 5y", "year", some "backward"⟩,
       ⟨some 10, "Last 10y", "year", some "backward"⟩,
       ⟨none, "All", "all", none⟩],
    rangeslider := true }

/-!
The loader level: `load_data` (source lines 15-28) reads two CSV files,
uppercases the column names, and left-merges on INDICATOR_ID. CSV sources
are modelled generically so that column presence/absence is expressible; an
unreadable file is `none`.
-/

/-- Model of `columns.str.upper()`: uppercase every character of a column
name. -/
def upperStr (s : String) : String :=
  ⟨s.data.map Char.toUpper⟩

/-- A column-oriented table as produced by `pd.read_csv`: a header row and
data rows of string cells. -/
structure Csv where
  header : List String
  rows : List (List String)
deriving DecidableEq, Repr

/-- The load-failure abstraction: a source file could not be read, or the
merge key column INDICATOR_ID is absent (pandas raises KeyError from
`merge(on="INDICATOR_ID")`). -/
inductive DataSourceError where
  | unreadable
  | missingColumn
deriving DecidableEq, Repr

/-- Pandas `how="left"` merge of `nd` with `lb` on the key columns at
indices `i` (left) and `j` (right): every left row is emitted once per
matching right row, or once with missing (empty) label cells when no right
row matches. -/
def mergeCsv (nd lb : Csv) (i j : Nat) : Csv :=
  { header := nd.header ++ lb.header.eraseIdx j,
    rows := nd.rows.flatMap (fun r =>
      let key := (r.get? i).getD ""
      let ms := lb.rows.filter (fun s => (s.get? j).getD "" == key)
      if ms.isEmpty then [r ++ List.replicate (lb.header.length - 1) ""]
      else ms.map (fun s => r ++ s.eraseIdx j)) }

/-- Source lines 15-28: read the two sources (failing if either is
unreadable), uppercase the column names, and left-merge on INDICATOR_ID
(failing if either table lacks that column). No other column is checked. -/
def load_data (values labels : Option Csv) : Except DataSourceError Csv :=
  match values, labels with
  | none, _ => .error .unreadable
  | _, none => .error .unreadable
  | some nd0, some lb0 =>
    let nd : Csv := { nd0 with header := nd0.header.map upperStr }
    let lb : Csv := { lb0 with header := lb0.header.map upperStr }
    match nd.header.findIdx? (fun s => s == "INDICATOR_ID"),
          lb.header.findIdx? (fun s => s == "INDICATOR_ID") with
    | some i, some j => .ok (mergeCsv nd lb i j)
    | _, _ => .error .missingColumn

/-- Whether `load_data` fails on the given pair of sources. -/
def loadFails (values labels : Option Csv) : Bool :=
  match load_data values labels with
  | .error _ => true
  | .ok _ => false

/-- Whether a source table carries the merge key column after
case-normalization. -/
def hasMergeKey (c : Csv) : Bool :=
  ((c.header.map upperStr).findIdx? (fun s => s == "INDICATOR_ID")).isSome

/-- The key-column entries of the label source, read at the same column
index the merge uses. -/
def labelKeys (lb : Csv) : List String :=
  match (lb.header.map upperStr).findIdx? (fun s => s == "INDICATOR_ID") with
  | some j => lb.rows.map (fun s => (s.get? j).getD "")
  | none => []

/-- The row count of the merged table, when the load succeeds. -/
def loadRowCount (values labels : Option Csv) : Option Nat :=
  match load_data values labels with
  | .ok c => some c.rows.length
  | .error _ => none

/-- The `@st.cache_data` memoization of `load_data`: the first call computes
and stores the result, later calls in the same process return the stored
result without recomputation. -/
def load_data_cached (values labels : Option Csv)
    (cache : Option (Except DataSourceError Csv)) :
    Except DataSourceError Csv × Option (Except DataSourceError Csv) :=
  match cache with
  | some r => (r, some r)
  | none => (load_data values labels, some (load_data values labels))

/-!
A small heap of tables, to express the aliasing consequence of the
`.copy()` in `filter_by_countries_indicator`: the filter allocates a fresh
table, so the caller's in-place YEAR coercion does not touch the merged
table it filtered from.
-/

/-- A heap of DataFrame objects, addressed by allocation index. -/
abbrev Heap : Type := List (List MRow)

/-- The filter as an operation on the heap: read the table at `r`, filter
it, and (because of the `.copy()` on line 55) store the result in a fresh
cell, returning its address. -/
def filter_op (h : Heap) (r : Nat) (countries : List String)
    (code : String) : Nat × Heap :=
  (List.length h,
   h ++ [filter_by_countries_indicator ((List.get? h r).getD []) countries code])

/-- Source line 65 / 173 as a heap mutation: overwrite the table at `r`
with its YEAR-coerced version. -/
def coerce_year_in_place (h : Heap) (r : Nat) : Heap :=
  List.set h r (((List.get? h r).getD []).map coerceYear)

/-! Concrete fixtures used by the scenario claims. -/

/-- The three-row values table of the concrete literacy scenario:
(ETH, LR.AG15T99, 2015, 45.0), (ETH, LR.AG15T99, 2020, 52.0),
(KEN, LR.AG15T99, 2020, 78.0). -/
def exDf : List MRow :=
  [⟨"ETH", "LR.AG15T99", .num 2015, 45, none⟩,
   ⟨"ETH", "LR.AG15T99", .num 2020, 52, none⟩,
   ⟨"KEN", "LR.AG15T99", .num 2020, 78, none⟩]

/-- A filtered series whose single YEAR entry is a non-numeric string. -/
def exBadDf : List MRow :=
  [⟨"ETH", "LR.AG15T99", .str "n/a", 45, none⟩]

/-!
Theorems.
-/

/-- Claim C1: every row returned by `filter_by_countries_indicator`
satisfies `countryId ∈ countries ∧ indicatorId = indicator_code`, and the
number of returned rows is at most the number of input rows. -/
theorem filter_sound_and_shrinking (df : List MRow) (countries : List String)
    (indicator_code : String) :
    (filter_by_countries_indicator df countries indicator_code).length ≤ df.length ∧
    ∀ r, r ∈ filter_by_countries_indicator df countries indicator_code →
      r.countryId ∈ countries ∧ r.indicatorId = indicator_code := by
  constructor
  · exact List.length_filter_le _ _
  · intro r hr
    rw [filter_by_countries_indicator, List.mem_filter] at hr
    have h2 := hr.2
    simp at h2
    exact h2

/-- Witness for C1 at the concrete literacy table: the first ETH row is in
the filter output and satisfies the predicate; the output is not longer
than the input. -/
theorem filter_sound_and_shrinking_witness :
    (filter_by_countries_indicator exDf ["ETH","KEN"] "LR.AG15T99").length ≤ exDf.length ∧
    ((⟨"ETH", "LR.AG15T99", .num 2015, 45, none⟩ : MRow).countryId ∈ ["ETH","KEN"] ∧
     (⟨"ETH", "LR.AG15T99", .num 2015, 45, none⟩ : MRow).indicatorId = "LR.AG15T99") :=
  ⟨(filter_sound_and_shrinking exDf ["ETH","KEN"] "LR.AG15T99").1,
   (filter_sound_and_shrinking exDf ["ETH","KEN"] "LR.AG15T99").2 _ (by decide)⟩

/-- Claim C6: when no row matches the selection, the filter returns the
empty table (and, being a total function, raises nothing). -/
theorem filter_no_match_empty (df : List MRow) (countries : List String)
    (indicator_code : String)
    (h : ∀ r ∈ df, ¬(r.countryId ∈ countries ∧ r.indicatorId = indicator_code)) :
    filter_by_countries_indicator df countries indicator_code = [] := by
  rw [filter_by_countries_indicator, List.filter_eq_nil_iff]
  intro a ha
  have hna := h a ha
  simp
  exact fun hc hi => hna ⟨hc, hi⟩

/-- Witness for C6: the indicator code "ZZ.999" matches no row of the
concrete table, and the filter returns the empty table. -/
theorem filter_no_match_empty_witness :
    filter_by_countries_indicator exDf ["ETH","KEN"] "ZZ.999" = [] :=
  filter_no_match_empty exDf ["ETH","KEN"] "ZZ.999" (by decide)

/-- Claim C7: on the concrete three-row table, filtering with
{ETH, KEN} × LR.AG15T99 keeps all 3 rows, and the trend figure carries
the target line at y = 90 spanning [2015, 2020] with the "90% target"
text anchored at (2020, 90). -/
theorem literacy_scenario :
    exDf.length = 3 ∧
    filter_by_countries_indicator exDf ["ETH","KEN"] "LR.AG15T99" = exDf ∧
    (plot_adult_literacy_trend
        (filter_by_countries_indicator exDf ["ETH","KEN"] "LR.AG15T99")).shapes =
      [⟨"line", some 2015, some 2020, 90, 90, "dash", "red"⟩] ∧
    (plot_adult_literacy_trend
        (filter_by_countries_indicator exDf ["ETH","KEN"] "LR.AG15T99")).textMarks =
      [⟨some 2020, 90, "90% target", false⟩] :=
  ⟨rfl, rfl, rfl, rfl⟩

/-- Claim C8: both chart builders attach exactly the three range-selector
entries — "Last 5y" spanning 5 units anchored backward from the most
recent, "Last 10y" spanning 10 likewise, and "All" with unbounded span —
for every input series. -/
theorem range_selector_buttons (df : List MRow) (lbl : String) :
    (plot_adult_literacy_trend df).rangeButtons =
      [⟨some 5, "Last 5y", "year", some "backward"⟩,
       ⟨some 10, "Last 10y", "year", some "backward"⟩,
       ⟨none, "All", "all", none⟩] ∧
    (regional_comparison_fig df lbl).rangeButtons =
      [⟨some 5, "Last 5y", "year", some "backward"⟩,
       ⟨some 10, "Last 10y", "year", some "backward"⟩,
       ⟨none, "All", "all", none⟩] :=
  ⟨rfl, rfl⟩

/-- Claim C9: with unchanged sources, the second call through the memoized
loader returns content identical to the first call's result. -/
theorem load_data_cached_idempotent (values labels : Option Csv) :
    (load_data_cached values labels (load_data_cached values labels none).2).1 =
    (load_data_cached values labels none).1 :=
  rfl

/-- Counterexample to claim C2: on a series whose only YEAR entry is the
non-numeric string "n/a", the built figure still carries the target-line
shape — with undefined (NaN, modelled `none`) x-extent — rather than
omitting the overlay. -/
theorem target_overlay_not_omitted :
    (plot_adult_literacy_trend exBadDf).shapes =
      [⟨"line", none, none, 90, 90, "dash", "red"⟩] ∧
    (plot_adult_literacy_trend exBadDf).shapes ≠ [] :=
  ⟨rfl, by decide⟩

/-- Claim C2 amended: when every YEAR value of the series fails numeric
coercion, building the trend chart does not crash — `min_year` and
`max_year` are undefined and the target shape and its annotation are
still emitted, with that undefined x-extent. -/
theorem target_overlay_undefined_extent (df : List MRow)
    (h : ∀ r ∈ df, cellInt? (toNumericCell r.year) = none) :
    (plot_adult_literacy_trend df).shapes =
      [⟨"line", none, none, 90, 90, "dash", "red"⟩] ∧
    (plot_adult_literacy_trend df).textMarks =
      [⟨none, 90, "90% target", false⟩] := by
  have hyears : (df.map coerceYear).filterMap (fun r => cellInt? r.year) = [] := by
    rw [List.filterMap_eq_nil_iff]
    intro a ha
    rcases List.mem_map.mp ha with ⟨r, hr, rfl⟩
    exact h r hr
  constructor <;> simp [plot_adult_literacy_trend, hyears]

/-- Witness for the amended C2 on the concrete all-non-numeric series. -/
theorem target_overlay_undefined_extent_witness :
    (plot_adult_literacy_trend exBadDf).shapes =
      [⟨"line", none, none, 90, 90, "dash", "red"⟩] ∧
    (plot_adult_literacy_trend exBadDf).textMarks =
      [⟨none, 90, "90% target", false⟩] :=
  target_overlay_undefined_extent exBadDf (by decide)

/-- Counterexample to claim C5: `region_countries "Atlantis"` does not
raise; the else branch of the region dispatch hands back the South
America country list. -/
theorem region_countries_atlantis :
    region_countries "Atlantis" = SOUTH_AMERICA ∧
    region_countries "Atlantis" ≠ [] :=
  ⟨rfl, by decide⟩

/-- Claim C5 amended: the indicator lookup raises (returns `none`) for
every label outside the enumerated set, but the region dispatch never
raises — every name other than "Sub-Saharan Africa" yields the South
America country list. -/
theorem catalog_lookup_behavior :
    (∀ lbl : String, (∀ p ∈ indicator_options, p.1 ≠ lbl) →
      indicator_code lbl = none) ∧
    (∀ s : String, s ≠ "Sub-Saharan Africa" →
      region_countries s = SOUTH_AMERICA) := by
  constructor
  · intro lbl h
    have hfind : indicator_options.find? (fun p => p.1 == lbl) = none := by
      rw [List.find?_eq_none]
      intro p hp
      simp only [beq_iff_eq]
      exact h p hp
    rw [indicator_code, hfind]
    rfl
  · intro s hs
    simp [region_countries, hs]

/-- Witness for the amended C5 at the name "Atlantis". -/
theorem catalog_lookup_behavior_witness :
    indicator_code "Atlantis" = none ∧
    region_countries "Atlantis" = SOUTH_AMERICA :=
  ⟨catalog_lookup_behavior.1 "Atlantis" (by decide),
   catalog_lookup_behavior.2 "Atlantis" (by decide)⟩

/-- A values source missing the COUNTRY_ID column but carrying the merge
key. -/
def exValuesNoCountry : Csv :=
  ⟨["INDICATOR_ID", "YEAR", "VALUE"], [["CR.1", "2015", "45.0"]]⟩

/-- A well-formed one-row label source. -/
def exLabelsOk : Csv :=
  ⟨["INDICATOR_ID", "INDICATOR_LABEL_EN"], [["CR.1", "Primary completion rate"]]⟩

/-- A well-formed one-row values source. -/
def exValues : Csv :=
  ⟨["COUNTRY_ID", "INDICATOR_ID", "YEAR", "VALUE"],
   [["ETH", "CR.1", "2015", "45.0"]]⟩

/-- A label source with two rows sharing the indicator key "CR.1". -/
def exLabelsDup : Csv :=
  ⟨["INDICATOR_ID", "INDICATOR_LABEL_EN"],
   [["CR.1", "Primary completion"], ["CR.1", "Primary completion rate"]]⟩

/-- Counterexample to claim C4: a values source lacking the COUNTRY_ID
column loads without error — the loader never checks that column. -/
theorem load_no_country_column_succeeds :
    loadFails (some exValuesNoCountry) (some exLabelsOk) = false :=
  rfl

/-- Claim C4 amended: `load_data` fails exactly when a source is unreadable
or a source lacks the INDICATOR_ID merge column (after case
normalization); no other load-failure mode exists, and the COUNTRY_ID
column is not checked. -/
theorem load_failure_modes :
    (∀ nd lb : Csv,
      loadFails (some nd) (some lb) = (!hasMergeKey nd || !hasMergeKey lb)) ∧
    (∀ l, loadFails none l = true) ∧
    (∀ v, loadFails (some v) none = true) := by
  refine ⟨?_, fun l => by cases l <;> rfl, fun v => rfl⟩
  intro nd lb
  simp only [loadFails, load_data, hasMergeKey]
  cases h1 : ((nd.header.map upperStr).findIdx? (fun s => s == "INDICATOR_ID")) <;>
    cases h2 : ((lb.header.map upperStr).findIdx? (fun s => s == "INDICATOR_ID")) <;>
      simp [h1, h2]

/-- Counterexample to claim C3: with a one-row values source and a label
source holding two rows under the same key, the left merge emits two rows
— the merged row count exceeds the values row count. -/
theorem left_join_duplicates_rows :
    loadRowCount (some exValues) (some exLabelsDup) = some 2 ∧
    exValues.rows.length = 1 :=
  ⟨rfl, rfl⟩

/-- Lists whose key images are distinct have at most one element matching
any given key. -/
theorem length_filter_key_le_one (l : List (List String))
    (f : List String → String) (k : String) (h : (l.map f).Nodup) :
    (l.filter (fun s => f s == k)).length ≤ 1 := by
  induction l with
  | nil => simp
  | cons a l ih =>
    rw [List.map_cons, List.nodup_cons] at h
    rw [List.filter_cons]
    by_cases hk : f a = k
    · have hfa : (f a == k) = true := by simp [hk]
      rw [if_pos hfa]
      have hnil : l.filter (fun s => f s == k) = [] := by
        rw [List.filter_eq_nil_iff]
        intro b hb
        simp only [beq_iff_eq]
        intro hfb
        exact h.1 (by rw [hk, ← hfb]; exact List.mem_map_of_mem f hb)
      rw [hnil]
      simp
    · have hfa : ¬((f a == k) = true) := by simp [hk]
      rw [if_neg hfa]
      exact ih h.2

/-- A flat map whose element function always emits exactly one row
preserves list length. -/
theorem flatMap_length_of_one {α β : Type} (f : α → List β) (l : List α)
    (h : ∀ a, (f a).length = 1) : (l.flatMap f).length = l.length := by
  induction l with
  | nil => rfl
  | cons a l ih =>
    rw [List.flatMap_cons, List.length_append, h a, ih, List.length_cons]
    omega

/-- One merge step emits exactly one row when the label keys are
distinct: either no label row matches (one padded row) or exactly one
does. -/
theorem merge_emit_one_length (r : List String) (lb : Csv) (i j : Nat)
    (h : (lb.rows.map (fun s => (s.get? j).getD "")).Nodup) :
    (if (lb.rows.filter (fun s => (s.get? j).getD "" == (r.get? i).getD "")).isEmpty
     then [r ++ List.replicate (lb.header.length - 1) ""]
     else (lb.rows.filter
        (fun s => (s.get? j).getD "" == (r.get? i).getD "")).map
          (fun s => r ++ s.eraseIdx j)).length = 1 := by
  by_cases hemp :
      (lb.rows.filter (fun s => (s.get? j).getD "" == (r.get? i).getD "")).isEmpty = true
  · rw [if_pos hemp]
    rfl
  · rw [if_neg hemp, List.length_map]
    have hle : (lb.rows.filter
        (fun s => (s.get? j).getD "" == (r.get? i).getD "")).length ≤ 1 :=
      length_filter_key_le_one lb.rows
        (fun s => (s.get? j).getD "") ((r.get? i).getD "") h
    have hne : lb.rows.filter
        (fun s => (s.get? j).getD "" == (r.get? i).getD "") ≠ [] := by
      intro hnil
      rw [hnil] at hemp
      exact hemp rfl
    have hpos := List.length_pos.mpr hne
    omega

/-- When the label rows have pairwise-distinct keys at column `j`, the
merged table has exactly one row per values row. -/
theorem mergeCsv_rows_length (nd lb : Csv) (i j : Nat)
    (h : (lb.rows.map (fun s => (s.get? j).getD "")).Nodup) :
    (mergeCsv nd lb i j).rows.length = nd.rows.length := by
  rw [mergeCsv]
  exact flatMap_length_of_one _ _ (fun r => merge_emit_one_length r lb i j h)

/-- Claim C3 amended: when the label source's indicator keys are pairwise
distinct (in particular when the label source is empty), the merged table
returned by `load_data` has exactly as many rows as the values source;
with repeated keys the merge can emit more rows than the values source. -/
theorem left_join_preserves_rows (nd lb c : Csv)
    (hload : load_data (some nd) (some lb) = .ok c)
    (hkeys : (labelKeys lb).Nodup) :
    c.rows.length = nd.rows.length := by
  simp only [load_data] at hload
  cases h1 : ((nd.header.map upperStr).findIdx? (fun s => s == "INDICATOR_ID")) with
  | none =>
    rw [h1] at hload
    cases h2 : ((lb.header.map upperStr).findIdx? (fun s => s == "INDICATOR_ID")) <;>
      rw [h2] at hload <;> exact absurd hload (by simp)
  | some i =>
    rw [h1] at hload
    cases h2 : ((lb.header.map upperStr).findIdx? (fun s => s == "INDICATOR_ID")) with
    | none =>
      rw [h2] at hload
      exact absurd hload (by simp)
    | some j =>
      rw [h2] at hload
      have hc : c = mergeCsv { nd with header := nd.header.map upperStr }
          { lb with header := lb.header.map upperStr } i j := by
        cases hload
        rfl
      rw [labelKeys, h2] at hkeys
      rw [hc]
      exact mergeCsv_rows_length _ _ i j hkeys

/-- A distinct-key label source for the C3 witness. -/
def exLabelsU : Csv :=
  ⟨["INDICATOR_ID", "INDICATOR_LABEL_EN"], [["CR.1", "Primary completion rate"]]⟩

/-- The merged table the loader produces on the distinct-key fixtures. -/
def exMerged : Csv :=
  match load_data (some exValues) (some exLabelsU) with
  | .ok c => c
  | .error _ => ⟨[], []⟩

/-- Witness for the amended C3 on the distinct-key fixtures: one values
row in, one merged row out. -/
theorem left_join_preserves_rows_witness :
    exMerged.rows.length = exValues.rows.length :=
  left_join_preserves_rows exValues exLabelsU exMerged rfl (by decide)

/-- Claim C10: the filter stores its result in a fresh cell (the `.copy()`),
so the caller's in-place YEAR coercion of the filtered table changes only
that fresh cell — the merged table it was filtered from reads back
unchanged, while the new cell holds the coerced filter output. -/
theorem filter_returns_copy (h : Heap) (r : Nat) (countries : List String)
    (code : String) (hr : r < List.length h) :
    List.get? (coerce_year_in_place (filter_op h r countries code).2
      (filter_op h r countries code).1) r = List.get? h r ∧
    List.get? (coerce_year_in_place (filter_op h r countries code).2
      (filter_op h r countries code).1) (filter_op h r countries code).1 =
      some ((filter_by_countries_indicator ((List.get? h r).getD []) countries
        code).map coerceYear) := by
  have hlen : (filter_op h r countries code).1 = List.length h := rfl
  have hheap : (filter_op h r countries code).2 =
      h ++ [filter_by_countries_indicator ((List.get? h r).getD []) countries code] := rfl
  rw [hlen, hheap, coerce_year_in_place]
  have hget : List.get?
      (h ++ [filter_by_countries_indicator ((List.get? h r).getD []) countries code])
      (List.length h) =
      some (filter_by_countries_indicator ((List.get? h r).getD []) countries code) := by
    simp [List.get?_eq_getElem?]
  rw [hget]
  constructor
  · rw [List.get?_eq_getElem?, List.get?_eq_getElem?,
      List.getElem?_set_ne (by omega)]
    exact List.getElem?_append_left hr
  · rw [List.get?_eq_getElem?, List.getElem?_set_self
      (by simp only [List.length_append, List.length_cons, List.length_nil]; omega)]
    rfl

/-- Witness for C10 on a one-cell heap holding the concrete table: after
filtering (which allocates cell 1) and coercing cell 1 in place, cell 0
still holds the original table, and cell 1 holds the coerced copy. -/
theorem filter_returns_copy_witness :
    List.get? (coerce_year_in_place (filter_op [exDf] 0 ["ETH","KEN"] "ZZ.999").2
      (filter_op [exDf] 0 ["ETH","KEN"] "ZZ.999").1) 0 = List.get? [exDf] 0 ∧
    List.get? (coerce_year_in_place (filter_op [exDf] 0 ["ETH","KEN"] "ZZ.999").2
      (filter_op [exDf] 0 ["ETH","KEN"] "ZZ.999").1)
      (filter_op [exDf] 0 ["ETH","KEN"] "ZZ.999").1 =
      some ((filter_by_countries_indicator ((List.get? [exDf] 0).getD [])
        ["ETH","KEN"] "ZZ.999").map coerceYear) :=
  filter_returns_copy [exDf] 0 ["ETH","KEN"] "ZZ.999" (by decide)
